import Mathlib

/-!
Verification of the consensus-storage bridge and node orchestration of
zksync-era (core/lib/zksync_core/src/consensus + core/lib/node).

The visible source is `consensus/mod.rs` (orchestrators, configs),
`consensus/tests.rs` (block construction and store scenarios),
`node/examples/main_node.rs` (resource provider) and
`node/src/resources/stop_receiver.rs`. The persistence bridge
(`consensus/storage.rs`) and the payload codec
(`zksync_dal::consensus_dal::Payload`) belong to the repository but are
not among the provided sources; they are modelled from the spec where a
claim needs them, as marked in the doc comments.

Opaque external identity values (keys, hashes, addresses, sockets) are
modelled as natural numbers; byte blobs as lists of naturals.
-/

namespace ZkSyncConsensus

/-- Opaque validator public key (external engine identity value). -/
abbrev PublicKey := Nat

/-- Opaque validator secret key (external engine identity value). -/
abbrev SecretKey := Nat

/-- Opaque node identity key. -/
abbrev NodeKey := Nat

/-- Chain operator address (`zksync_types::Address`). -/
abbrev Address := Nat

/-- Opaque socket address. -/
abbrev SocketAddr := Nat

/-- Derives the public key of a secret key (`key.public()` in the source);
keys are opaque identity values compared only for equality, so the
derivation is modelled as the identity map. -/
def publicOf (k : SecretKey) : PublicKey := k

/-- Embeds `validator::ValidatorSet`: a set of validator public keys (the
external crate stores them deduplicated as a set). -/
abbrev ValidatorSet := Finset PublicKey

/-- Embeds `validator::ValidatorSet::new` collects the given keys into a set
(the external crate duplicate/empty validation is outside this
repository and is out of scope per the spec). -/
def validatorSetNew (ks : List PublicKey) : ValidatorSet := ks.toFinset

/-- Modelled from the spec: a miniblock payload is "an opaque byte blob
encoding a miniblock transactions, timestamp, and operator address"
(`zksync_dal::consensus_dal::Payload`, not under the provided sources). -/
structure Payload where
  transactions : List Nat
  timestamp : Nat
  operator_address : Address
deriving DecidableEq, Repr

/-- Modelled from the spec: `Payload::encode` serializes the payload to a
byte blob (here, a list of naturals: timestamp, operator address,
transaction count, then the transactions). -/
def Payload.encode (p : Payload) : List Nat :=
  p.timestamp :: p.operator_address :: p.transactions.length :: p.transactions

/-- Modelled from the spec: `Payload::decode` parses an encoded byte blob
back into a payload, failing on malformed input. -/
def Payload.decode (bytes : List Nat) : Option Payload :=
  match bytes with
  | t :: op :: len :: rest =>
    if rest.length = len then some ⟨rest, t, op⟩ else none
  | _ => none

/-- Hash of a byte blob (`payload.hash()`); an injective-by-construction
accumulation via the Cantor pairing function stands in for the opaque
cryptographic hash. -/
def bytesHash (bytes : List Nat) : Nat :=
  bytes.foldl (fun acc b => Nat.pair acc b) 0

/-- Embeds `validator::BlockHeader`: parent hash (absent only for genesis),
block number, payload hash. -/
structure BlockHeader where
  parent : Option Nat
  number : Nat
  payloadHash : Nat
deriving DecidableEq, Repr

/-- Hash of a header (`header.hash()`), modelled by pairing its fields;
the block hash of a final block is the hash of its header. -/
def BlockHeader.hash (h : BlockHeader) : Nat :=
  Nat.pair (match h.parent with | none => 0 | some x => x + 1)
    (Nat.pair h.number h.payloadHash)

/-- Embeds `validator::BlockHeader::new(parent, payload_hash)`: the child header
of `parent`, so its parent hash is `parent.hash()` and its number is
`parent.number + 1` (spec: header.number = parent.number + 1). -/
def BlockHeader.new (parent : BlockHeader) (payloadHash : Nat) : BlockHeader :=
  { parent := some parent.hash, number := parent.number + 1, payloadHash }

/-- Embeds `validator::BlockHeader::genesis(payload_hash, number)`: a header
with no parent at the given number. -/
def BlockHeader.genesis (payloadHash : Nat) (number : Nat) : BlockHeader :=
  { parent := none, number, payloadHash }

/-- Embeds `validator::FinalBlock`: payload plus justification (quorum
certificate); the header certified by the justification is carried
explicitly. -/
structure FinalBlock where
  header : BlockHeader
  payload : List Nat
  justification : Nat
deriving DecidableEq, Repr

instance : Inhabited FinalBlock := ⟨⟨⟨none, 0, 0⟩, [], 0⟩⟩

/-- Block number of a final block. -/
def FinalBlock.number (b : FinalBlock) : Nat := b.header.number

/-- Embeds `validator::testonly::make_justification`: an opaque certificate over
a header; the source draws it from an rng, modelled deterministically as
the header hash (the bridge never inspects it). -/
def makeJustification (h : BlockHeader) : Nat := h.hash

/-- The header `make_blocks` (tests.rs) builds for block number `n`:
the child of the previous block header when there is one, a genesis
header otherwise. -/
def nextHeader (payloadAt : Nat → Payload) (n : Nat) :
    Option BlockHeader → BlockHeader
  | some ph => BlockHeader.new ph (bytesHash (payloadAt n).encode)
  | none => BlockHeader.genesis (bytesHash (payloadAt n).encode) n

/-- Core loop of `make_blocks` (tests.rs): starting at block number `n`
with an optional parent header, build `len` consecutive final blocks,
each carrying its encoded payload and a justification over its header. -/
def makeBlocksFrom (payloadAt : Nat → Payload) :
    Nat → Option BlockHeader → Nat → List FinalBlock
  | _, _, 0 => []
  | n, parent, len + 1 =>
    ⟨nextHeader payloadAt n parent, (payloadAt n).encode,
      makeJustification (nextHeader payloadAt n parent)⟩ ::
      makeBlocksFrom payloadAt (n + 1) (some (nextHeader payloadAt n parent)) len

/-- Embeds `make_blocks` (tests.rs): build final blocks for the numbers in
`[start, start + len)` from the locally stored payloads. -/
def makeBlocks (payloadAt : Nat → Payload) (start len : Nat) : List FinalBlock :=
  makeBlocksFrom payloadAt start none len

/-- Error answered by the persistent block store capability. -/
inductive StoreError where
  | OutOfOrder
deriving DecidableEq, Repr

/-- Modelled from the spec: the certified chain held by the persistence
bridge (`consensus/storage.rs`, not under the provided sources) — the
ordered list of final blocks whose certificates have been persisted. -/
structure BlockStoreState where
  blocks : List FinalBlock
deriving DecidableEq, Repr

/-- Head block number of the certified chain, if any. -/
def BlockStoreState.headNumber (s : BlockStoreState) : Option Nat :=
  s.blocks.getLast?.map FinalBlock.number

/-- Modelled from the spec: `Store::store_next_block`
(`consensus/storage.rs`, not under the provided sources): "accepts only
block.number == head+1; persists its certificate; fails with OutOfOrder
if number mismatches". With no certified block yet, the first inserted
block starts the certified chain (tests.rs inserts block 4 into an empty
store). On error nothing is persisted and the chain is unchanged. -/
def store_next_block (s : BlockStoreState) (b : FinalBlock) :
    Except StoreError BlockStoreState :=
  match s.blocks.getLast? with
  | none => .ok ⟨[b]⟩
  | some last =>
    if b.number = last.number + 1 then .ok ⟨s.blocks ++ [b]⟩
    else .error .OutOfOrder

/-- Embeds `storage::testonly::dump`: the full certified chain currently held by
the store, in order. -/
def dump (s : BlockStoreState) : List FinalBlock := s.blocks

/-- Modelled from the spec: the local chain visible to the genesis
bootstrap (`consensus/storage.rs`, not under the provided sources) — the
earliest locally produced block number, the payloads from there on, and
the persisted genesis record ("the first FinalBlock header, persisted
once"). -/
structure ChainState where
  firstNumber : Nat
  localPayloads : List Payload
  genesisRecord : Option BlockHeader
deriving DecidableEq, Repr

/-- The genesis header the bootstrap would build from the current local
chain: a header with no parent over the earliest available local block
(none when local execution has produced no block yet). -/
def ChainState.genesisFromLocal (s : ChainState) : Option BlockHeader :=
  s.localPayloads.head?.map fun p =>
    BlockHeader.genesis (bytesHash p.encode) s.firstNumber

/-- Errors of the genesis bootstrap. -/
inductive GenesisError where
  | noLocalBlocks
  | storageConsistency
deriving DecidableEq, Repr

/-- Modelled from the spec: `try_init_genesis` (`consensus/storage.rs`,
not under the provided sources). "On first run with no persisted genesis:
reads the earliest block produced by local execution, builds a header
with no parent, ... and persists it as the genesis record. On every
subsequent run: loads the existing genesis record and asserts it is
unchanged; a mismatch is a fatal StorageConsistencyError — the operator
must not silently rewrite history." On error nothing is persisted. -/
def try_init_genesis (s : ChainState) : Except GenesisError ChainState :=
  match s.genesisRecord with
  | some g =>
    match s.genesisFromLocal with
    | some g2 => if g2 = g then .ok s else .error .storageConsistency
    | none => .error .storageConsistency
  | none =>
    match s.genesisFromLocal with
    | some g => .ok { s with genesisRecord := some g }
    | none => .error .noLocalBlocks

/-- Embeds `executor::Config` (external engine configuration assembled by
`SerdeConfig::executor`). -/
structure ExecutorConfig where
  server_addr : SocketAddr
  validators : ValidatorSet
  node_key : NodeKey
  gossip_dynamic_inbound_limit : Nat
  gossip_static_inbound : List Nat
  gossip_static_outbound : List (Nat × SocketAddr)
deriving DecidableEq

/-- Embeds `executor::ValidatorConfig`: validator signing key plus advertised
public address. -/
structure ValidatorConfig where
  key : SecretKey
  public_addr : SocketAddr
deriving DecidableEq, Repr

/-- Embeds `SerdeConfig` (consensus/mod.rs): the deserialized configuration
surface. -/
structure SerdeConfig where
  server_addr : SocketAddr
  public_addr : SocketAddr
  validator_key : Option SecretKey
  validator_set : List PublicKey
  node_key : NodeKey
  gossip_dynamic_inbound_limit : Nat
  gossip_static_inbound : List Nat
  gossip_static_outbound : List (Nat × SocketAddr)
  operator_address : Option Address
deriving DecidableEq

/-- Embeds `SerdeConfig::executor` (consensus/mod.rs): assembles the engine
configuration from the deserialized fields. -/
def SerdeConfig.executor (cfg : SerdeConfig) : ExecutorConfig :=
  { server_addr := cfg.server_addr
    validators := validatorSetNew cfg.validator_set
    node_key := cfg.node_key
    gossip_dynamic_inbound_limit := cfg.gossip_dynamic_inbound_limit
    gossip_static_inbound := cfg.gossip_static_inbound
    gossip_static_outbound := cfg.gossip_static_outbound }

/-- Embeds `SerdeConfig::validator` (consensus/mod.rs): requires the validator
key ("validator_key is required"). -/
def SerdeConfig.validator (cfg : SerdeConfig) :
    Except String ValidatorConfig :=
  match cfg.validator_key with
  | none => .error "validator_key is required"
  | some k => .ok { key := k, public_addr := cfg.public_addr }

/-- Embeds `Config` (consensus/mod.rs): validator-role orchestrator
configuration. -/
structure Config where
  executor : ExecutorConfig
  validator : ValidatorConfig
  operator_address : Address
deriving DecidableEq

/-- Embeds `TryFrom<SerdeConfig> for Config` (consensus/mod.rs): builds the
executor config, requires the validator config and the operator address
("operator_address is required"). -/
def Config.tryFrom (cfg : SerdeConfig) : Except String Config :=
  match cfg.validator with
  | .error e => .error e
  | .ok v =>
    match cfg.operator_address with
    | none => .error "operator_address is required"
    | some a => .ok { executor := cfg.executor, validator := v, operator_address := a }

/-- Embeds `FetcherConfig` (consensus/mod.rs): fetcher-role orchestrator
configuration. -/
structure FetcherConfig where
  executor : ExecutorConfig
  operator_address : Address
deriving DecidableEq

/-- Embeds `TryFrom<SerdeConfig> for FetcherConfig` (consensus/mod.rs): builds
the executor config and requires only the operator address. -/
def FetcherConfig.tryFrom (cfg : SerdeConfig) : Except String FetcherConfig :=
  match cfg.operator_address with
  | none => .error "operator_address is required"
  | some a => .ok { executor := cfg.executor, operator_address := a }

/-- The observable orchestration steps of `Config::run` and
`FetcherConfig::run` (consensus/mod.rs), in program order. -/
inductive OrchEvent where
  | createStore
  | initGenesis
  | installActionsQueue
  | buildCachingStore
  | spawnCacheRunner
  | runEngine (validatorRole : Bool)
deriving DecidableEq, Repr

/-- Startup errors of the orchestrators. -/
inductive ConfigError where
  | multiValidator
deriving DecidableEq, Repr

deriving instance DecidableEq for Except

/-- Outcome of an orchestrator run: the ordered orchestration steps it
performed and its result. -/
structure RunOutcome where
  events : List OrchEvent
  result : Except ConfigError Unit
deriving DecidableEq

/-- Embeds `Config::run` (consensus/mod.rs): fails fast with the
multi-validator configuration error when the configured validator set is
not exactly the singleton of the local key public key; otherwise
creates the Store, initializes genesis, wraps the store in the caching
`BlockStore`, spawns its background runner, and runs the executor with a
validator role. -/
def Config.run (cfg : Config) : RunOutcome :=
  if cfg.executor.validators ≠ validatorSetNew [publicOf cfg.validator.key] then
    { events := [], result := .error .multiValidator }
  else
    { events := [.createStore, .initGenesis, .buildCachingStore,
        .spawnCacheRunner, .runEngine true]
      result := .ok () }

/-- Embeds `FetcherConfig::run` (consensus/mod.rs): creates the Store, installs
the action queue on it, wraps it in the caching `BlockStore`, spawns its
background runner, and runs the executor with no validator role. -/
def FetcherConfig.run (_cfg : FetcherConfig) : RunOutcome :=
  { events := [.createStore, .installActionsQueue, .buildCachingStore,
      .spawnCacheRunner, .runEngine false]
    result := .ok () }

/-- Embeds `RESOURCE_NAME` (node/src/resources/stop_receiver.rs). -/
def stopReceiverResourceName : String := "common/stop_receiver"

/-- Modelled from the spec: `MasterPoolResource::RESOURCE_NAME`
(node/src/resources/pools.rs, not under the provided sources) — the name
of the shared connection-pool resource, distinct from the shutdown-signal
resource name. -/
def masterPoolResourceName : String := "common/master_pool"

/-- The resources `MainNodeResourceProvider` can hand out (the boxed
`Any` values of the source). -/
inductive Resource where
  | masterPool
deriving DecidableEq, Repr

/-- Embeds `ResourceProvider::get_resource` for `MainNodeResourceProvider`
(node/examples/main_node.rs): answers the master-pool resource for its
name and `None` for every other name. -/
def get_resource (name : String) : Option Resource :=
  if name = masterPoolResourceName then some .masterPool else none

/-! ## Helper lemmas -/

lemma nextHeader_number (payloadAt : Nat → Payload) (n : Nat)
    (parent : Option BlockHeader) :
    (nextHeader payloadAt n parent).number =
      match parent with
      | none => n
      | some ph => ph.number + 1 := by
  cases parent <;> rfl

lemma makeBlocksFrom_number (payloadAt : Nat → Payload) :
    ∀ (len n : Nat) (parent : Option BlockHeader) (i : Nat), i < len →
      ((makeBlocksFrom payloadAt n parent len).getD i default).header.number =
        match parent with
        | none => n + i
        | some ph => ph.number + 1 + i := by
  intro len
  induction len with
  | zero => intro n parent i h; exact absurd h (Nat.not_lt_zero i)
  | succ l ih =>
    intro n parent i h
    cases i with
    | zero =>
      cases parent <;>
        simp [makeBlocksFrom, nextHeader, BlockHeader.new, BlockHeader.genesis]
    | succ j =>
      have hj : j < l := Nat.lt_of_succ_lt_succ h
      have h2 := ih (n + 1) (some (nextHeader payloadAt n parent)) j hj
      simp only [nextHeader_number] at h2
      simp only [makeBlocksFrom, List.getD_cons_succ]
      rw [h2]
      cases parent <;> simp <;> omega

lemma makeBlocksFrom_link (payloadAt : Nat → Payload) :
    ∀ (len n : Nat) (parent : Option BlockHeader) (i : Nat), i + 1 < len →
      ((makeBlocksFrom payloadAt n parent len).getD (i + 1) default).header.parent =
        some (((makeBlocksFrom payloadAt n parent len).getD i default).header.hash) := by
  intro len
  induction len with
  | zero => intro n parent i h; exact absurd h (Nat.not_lt_zero _)
  | succ l ih =>
    intro n parent i h
    cases i with
    | zero =>
      obtain ⟨l2, rfl⟩ : ∃ l2, l = l2 + 1 := ⟨l - 1, by omega⟩
      simp [makeBlocksFrom, nextHeader, BlockHeader.new]
    | succ j =>
      have hj : j + 1 < l := by omega
      have h2 := ih (n + 1) (some (nextHeader payloadAt n parent)) j hj
      simp only [makeBlocksFrom, List.getD_cons_succ]
      exact h2

lemma makeBlocksFrom_take (payloadAt : Nat → Payload) :
    ∀ (len len2 n : Nat) (parent : Option BlockHeader), len ≤ len2 →
      makeBlocksFrom payloadAt n parent len =
        (makeBlocksFrom payloadAt n parent len2).take len := by
  intro len
  induction len with
  | zero => intro len2 n parent _; rfl
  | succ l ih =>
    intro len2 n parent h
    obtain ⟨l2, rfl⟩ : ∃ l2, len2 = l2 + 1 := ⟨len2 - 1, by omega⟩
    simp only [makeBlocksFrom, List.take_succ_cons]
    rw [← ih l2 (n + 1) (some (nextHeader payloadAt n parent)) (by omega)]

/-! ## Claim theorems -/

/-- C3: for every chain of final blocks built by `make_blocks` over the
locally stored payloads, every block strictly after the first links to
its predecessor — its header parent hash is the hash of the previous
block header — and the header number of the block at position `i` is
`start + i`; moreover extending the chain by building more blocks leaves
every already-built block unchanged (the shorter chain is a prefix of
the longer), so every extension preserves the invariant. -/
theorem make_blocks_chain_invariant (payloadAt : Nat → Payload)
    (start len : Nat) :
    (∀ i, i < len →
      ((makeBlocks payloadAt start len).getD i default).header.number = start + i) ∧
    (∀ i, i + 1 < len →
      ((makeBlocks payloadAt start len).getD (i + 1) default).header.parent =
        some (((makeBlocks payloadAt start len).getD i default).header.hash)) ∧
    (∀ len2, len ≤ len2 →
      makeBlocks payloadAt start len = (makeBlocks payloadAt start len2).take len) := by
  refine ⟨fun i hi => ?_,
    fun i hi => makeBlocksFrom_link payloadAt len start none i hi,
    fun len2 h2 => makeBlocksFrom_take payloadAt len len2 start none h2⟩
  simpa using makeBlocksFrom_number payloadAt len start none i hi

/-- Sample payloads used to instantiate the chain-invariant theorem. -/
def samplePayloadAt (n : Nat) : Payload := ⟨[n, n], n, 17⟩

/-- Witness for C3 at a concrete chain of four blocks starting at 2. -/
theorem make_blocks_chain_invariant_witness :
    ((makeBlocks samplePayloadAt 2 4).getD 3 default).header.number = 2 + 3 ∧
    ((makeBlocks samplePayloadAt 2 4).getD 2 default).header.parent =
      some (((makeBlocks samplePayloadAt 2 4).getD 1 default).header.hash) ∧
    makeBlocks samplePayloadAt 2 4 = (makeBlocks samplePayloadAt 2 5).take 4 :=
  ⟨(make_blocks_chain_invariant samplePayloadAt 2 4).1 3 (by decide),
   (make_blocks_chain_invariant samplePayloadAt 2 4).2.1 1 (by decide),
   (make_blocks_chain_invariant samplePayloadAt 2 4).2.2 5 (by decide)⟩

/-- C8: decoding an encoded payload returns the original payload
unchanged (the codec round-trips losslessly). -/
theorem payload_encode_decode_roundtrip (p : Payload) :
    Payload.decode p.encode = some p := by
  obtain ⟨txs, ts, op⟩ := p
  simp [Payload.encode, Payload.decode]

/-- Witness for C8 at a concrete payload. -/
theorem payload_encode_decode_roundtrip_witness :
    Payload.decode (Payload.encode ⟨[2, 3], 9, 17⟩) = some ⟨[2, 3], 9, 17⟩ :=
  payload_encode_decode_roundtrip ⟨[2, 3], 9, 17⟩

/-- C2: on a chain whose head block number is `h`, `store_next_block`
succeeds and appends (persists) the block exactly when its number is
`h + 1`, and answers the OutOfOrder error — persisting nothing, so the
stored chain is unchanged — whenever its number differs from `h + 1`. -/
theorem store_next_block_contiguity (s : BlockStoreState) (h : Nat)
    (b : FinalBlock) (hh : s.headNumber = some h) :
    (b.number = h + 1 → store_next_block s b = Except.ok ⟨s.blocks ++ [b]⟩) ∧
    (b.number ≠ h + 1 → store_next_block s b = Except.error StoreError.OutOfOrder) := by
  unfold BlockStoreState.headNumber at hh
  unfold store_next_block
  cases hl : s.blocks.getLast? with
  | none => rw [hl] at hh; simp at hh
  | some last =>
    rw [hl] at hh
    have hn : last.number = h := by simpa using hh
    subst hn
    constructor
    · intro he; simp [he]
    · intro hne; simp [hne]

/-- Concrete certified block at number 4 for the C2 witness. -/
def headBlock4 : FinalBlock := ⟨⟨none, 4, 0⟩, [], 0⟩

/-- Concrete block with the contiguous next number 5. -/
def nextBlock5 : FinalBlock := ⟨⟨some 3, 5, 0⟩, [], 0⟩

/-- Concrete block with the out-of-order number 7. -/
def wrongBlock7 : FinalBlock := ⟨⟨some 3, 7, 0⟩, [], 0⟩

/-- Witness for C2: on head number 4, number 5 is appended and number 7
is rejected with OutOfOrder. -/
theorem store_next_block_contiguity_witness :
    store_next_block ⟨[headBlock4]⟩ nextBlock5 =
      Except.ok ⟨[headBlock4] ++ [nextBlock5]⟩ ∧
    store_next_block ⟨[headBlock4]⟩ wrongBlock7 =
      Except.error StoreError.OutOfOrder :=
  ⟨(store_next_block_contiguity ⟨[headBlock4]⟩ 4 nextBlock5 (by decide)).1 (by decide),
   (store_next_block_contiguity ⟨[headBlock4]⟩ 4 wrongBlock7 (by decide)).2 (by decide)⟩

lemma genesisFromLocal_set_record (s : ChainState) (g : Option BlockHeader) :
    ({ s with genesisRecord := g } : ChainState).genesisFromLocal =
      s.genesisFromLocal := rfl

/-- C4: genesis bootstrap is idempotent — after any successful run,
running it again succeeds with the exact same state, so both runs
persist the identical genesis record and a second record is never
produced; and on a chain whose earliest local block no longer matches
the stored genesis record, the bootstrap fails with the fatal
storage-consistency error instead of rewriting the record (the error
path persists nothing). -/
theorem genesis_bootstrap_idempotent :
    (∀ s s1 : ChainState, try_init_genesis s = Except.ok s1 →
      try_init_genesis s1 = Except.ok s1 ∧ s1.genesisRecord.isSome = true) ∧
    (∀ (s : ChainState) (g : BlockHeader), s.genesisRecord = some g →
      s.genesisFromLocal ≠ some g →
      try_init_genesis s = Except.error GenesisError.storageConsistency) := by
  constructor
  · intro s s1 h
    unfold try_init_genesis at h
    cases hr : s.genesisRecord with
    | some g =>
      cases hl : s.genesisFromLocal with
      | some g2 =>
        simp only [hr, hl] at h
        by_cases he : g2 = g
        · simp only [if_pos he] at h
          have hs : s = s1 := by simpa using h
          subst hs
          constructor
          · unfold try_init_genesis
            simp only [hr, hl, if_pos he]
          · rw [hr]; rfl
        · simp only [if_neg he] at h
          exact Except.noConfusion h
      | none =>
        simp only [hr, hl] at h
        exact Except.noConfusion h
    | none =>
      cases hl : s.genesisFromLocal with
      | some g =>
        simp only [hr, hl] at h
        have hs : ({ s with genesisRecord := some g } : ChainState) = s1 := by
          simpa using h
        subst hs
        refine ⟨?_, rfl⟩
        unfold try_init_genesis
        simp [genesisFromLocal_set_record, hl]
      | none =>
        simp only [hr, hl] at h
        exact Except.noConfusion h
  · intro s g hr hl
    unfold try_init_genesis
    cases hlv : s.genesisFromLocal with
    | some g2 =>
      have hne : g2 ≠ g := fun he => hl (he ▸ hlv)
      simp [hr, hne]
    | none => simp [hr]

/-- The single local payload backing the C4 witness chain. -/
def sampleLocalPayload : Payload := ⟨[5], 1, 17⟩

/-- C4 witness chain before bootstrap: no genesis record yet. -/
def chainNoGenesis : ChainState := ⟨0, [sampleLocalPayload], none⟩

/-- C4 witness chain after the first bootstrap run. -/
def chainWithGenesis : ChainState :=
  ⟨0, [sampleLocalPayload],
    some (BlockHeader.genesis (bytesHash sampleLocalPayload.encode) 0)⟩

/-- C4 witness chain whose stored genesis no longer matches the local
chain. -/
def chainBadGenesis : ChainState :=
  ⟨0, [sampleLocalPayload], some (BlockHeader.genesis 999 0)⟩

/-- Witness for C4: the second bootstrap run on the concrete bootstrapped
chain returns it unchanged, and the mismatching chain fails with the
storage-consistency error. -/
theorem genesis_bootstrap_idempotent_witness :
    (try_init_genesis chainWithGenesis = Except.ok chainWithGenesis ∧
      chainWithGenesis.genesisRecord.isSome = true) ∧
    try_init_genesis chainBadGenesis =
      Except.error GenesisError.storageConsistency :=
  ⟨genesis_bootstrap_idempotent.1 chainNoGenesis chainWithGenesis (by decide),
   genesis_bootstrap_idempotent.2 chainBadGenesis
     (BlockHeader.genesis 999 0) (by decide) (by decide)⟩

/-- C1: `Config::run` with a validator set different from the singleton
of the local key public key returns the multi-validator configuration
error having performed no orchestration step at all — in particular it
spawns no background task and never starts the engine — while a config
whose validator set is exactly that singleton proceeds past the check
and runs to the engine. -/
theorem config_run_single_validator_guard (cfg : Config) :
    (cfg.executor.validators ≠ validatorSetNew [publicOf cfg.validator.key] →
      cfg.run.result = Except.error ConfigError.multiValidator ∧
      cfg.run.events = []) ∧
    (cfg.executor.validators = validatorSetNew [publicOf cfg.validator.key] →
      cfg.run.result = Except.ok () ∧
      OrchEvent.spawnCacheRunner ∈ cfg.run.events ∧
      OrchEvent.runEngine true ∈ cfg.run.events) := by
  unfold Config.run
  by_cases h : cfg.executor.validators = validatorSetNew [publicOf cfg.validator.key]
  · simp [h]
  · simp [h]

/-- Engine configuration with the singleton validator set `{1}`. -/
def execSingle : ExecutorConfig := ⟨0, validatorSetNew [1], 7, 10, [], []⟩

/-- Engine configuration with the two-validator set `{1, 2}`. -/
def execDouble : ExecutorConfig := ⟨0, validatorSetNew [1, 2], 7, 10, [], []⟩

/-- Validator orchestrator config passing the single-validator guard. -/
def goodValidatorConfig : Config := ⟨execSingle, ⟨1, 0⟩, 17⟩

/-- Validator orchestrator config with a validator set of size 2. -/
def badValidatorConfig : Config := ⟨execDouble, ⟨1, 0⟩, 17⟩

/-- Fetcher orchestrator config used to instantiate the run theorems. -/
def sampleFetcherConfig : FetcherConfig := ⟨execSingle, 17⟩

/-- Witness for C1: the size-2 validator set fails with zero steps, the
singleton proceeds to the engine. -/
theorem config_run_single_validator_guard_witness :
    (badValidatorConfig.run.result = Except.error ConfigError.multiValidator ∧
      badValidatorConfig.run.events = []) ∧
    (goodValidatorConfig.run.result = Except.ok () ∧
      OrchEvent.spawnCacheRunner ∈ goodValidatorConfig.run.events ∧
      OrchEvent.runEngine true ∈ goodValidatorConfig.run.events) :=
  ⟨(config_run_single_validator_guard badValidatorConfig).1 (by decide),
   (config_run_single_validator_guard goodValidatorConfig).2 (by decide)⟩

/-- C5: the action queue is installed only in fetcher mode and before
the engine starts — in every `FetcherConfig::run` trace the install step
precedes building the caching block store, spawning its maintenance
task, and running the executor — while no `Config::run` (validator mode)
trace ever contains the install step. -/
theorem actions_queue_fetcher_only (vcfg : Config) (fcfg : FetcherConfig) :
    (OrchEvent.installActionsQueue ∈ fcfg.run.events ∧
      fcfg.run.events.indexOf OrchEvent.installActionsQueue <
        fcfg.run.events.indexOf OrchEvent.buildCachingStore ∧
      fcfg.run.events.indexOf OrchEvent.buildCachingStore <
        fcfg.run.events.indexOf OrchEvent.spawnCacheRunner ∧
      fcfg.run.events.indexOf OrchEvent.spawnCacheRunner <
        fcfg.run.events.indexOf (OrchEvent.runEngine false)) ∧
    OrchEvent.installActionsQueue ∉ vcfg.run.events := by
  constructor
  · unfold FetcherConfig.run
    decide
  · unfold Config.run
    by_cases h : vcfg.executor.validators =
        validatorSetNew [publicOf vcfg.validator.key]
    · simp [h]
    · simp [h]

/-- Witness for C5 at concrete validator and fetcher configurations. -/
theorem actions_queue_fetcher_only_witness :
    (OrchEvent.installActionsQueue ∈ sampleFetcherConfig.run.events ∧
      sampleFetcherConfig.run.events.indexOf OrchEvent.installActionsQueue <
        sampleFetcherConfig.run.events.indexOf OrchEvent.buildCachingStore ∧
      sampleFetcherConfig.run.events.indexOf OrchEvent.buildCachingStore <
        sampleFetcherConfig.run.events.indexOf OrchEvent.spawnCacheRunner ∧
      sampleFetcherConfig.run.events.indexOf OrchEvent.spawnCacheRunner <
        sampleFetcherConfig.run.events.indexOf (OrchEvent.runEngine false)) ∧
    OrchEvent.installActionsQueue ∉ goodValidatorConfig.run.events :=
  actions_queue_fetcher_only goodValidatorConfig sampleFetcherConfig

/-- C9: only the validator orchestrator bootstraps genesis — every
`Config::run` trace that reaches the engine performs the genesis
initialization before building the caching block store, spawning its
maintenance task, and running the executor, while no
`FetcherConfig::run` trace ever contains a genesis-initialization
step. -/
theorem genesis_init_validator_only (vcfg : Config) (fcfg : FetcherConfig) :
    (vcfg.run.result = Except.ok () →
      OrchEvent.initGenesis ∈ vcfg.run.events ∧
      vcfg.run.events.indexOf OrchEvent.initGenesis <
        vcfg.run.events.indexOf OrchEvent.buildCachingStore ∧
      vcfg.run.events.indexOf OrchEvent.initGenesis <
        vcfg.run.events.indexOf OrchEvent.spawnCacheRunner ∧
      vcfg.run.events.indexOf OrchEvent.initGenesis <
        vcfg.run.events.indexOf (OrchEvent.runEngine true)) ∧
    OrchEvent.initGenesis ∉ fcfg.run.events := by
  refine ⟨?_, by unfold FetcherConfig.run; decide⟩
  unfold Config.run
  by_cases h : vcfg.executor.validators =
      validatorSetNew [publicOf vcfg.validator.key]
  · simp [h]
  · simp [h]

/-- Witness for C9 at concrete validator and fetcher configurations. -/
theorem genesis_init_validator_only_witness :
    (OrchEvent.initGenesis ∈ goodValidatorConfig.run.events ∧
      goodValidatorConfig.run.events.indexOf OrchEvent.initGenesis <
        goodValidatorConfig.run.events.indexOf OrchEvent.buildCachingStore ∧
      goodValidatorConfig.run.events.indexOf OrchEvent.initGenesis <
        goodValidatorConfig.run.events.indexOf OrchEvent.spawnCacheRunner ∧
      goodValidatorConfig.run.events.indexOf OrchEvent.initGenesis <
        goodValidatorConfig.run.events.indexOf (OrchEvent.runEngine true)) ∧
    OrchEvent.initGenesis ∉ sampleFetcherConfig.run.events :=
  ⟨(genesis_init_validator_only goodValidatorConfig sampleFetcherConfig).1
      (by decide),
   (genesis_init_validator_only goodValidatorConfig sampleFetcherConfig).2⟩

/-- C7: converting a `SerdeConfig` succeeds exactly when the fields
mandatory for the requested role are present — to a validator `Config`
iff both the validator key and the operator address are set, to a
`FetcherConfig` iff the operator address is set (the validator key may
be absent). -/
theorem serde_config_role_validation (cfg : SerdeConfig) :
    ((Config.tryFrom cfg).isOk = true ↔
      cfg.validator_key.isSome = true ∧ cfg.operator_address.isSome = true) ∧
    ((FetcherConfig.tryFrom cfg).isOk = true ↔
      cfg.operator_address.isSome = true) := by
  unfold Config.tryFrom FetcherConfig.tryFrom SerdeConfig.validator
  cases cfg.validator_key <;> cases cfg.operator_address <;>
    simp [Except.isOk, Except.toBool]

/-- A `SerdeConfig` with every optional field present. -/
def serdeAllFields : SerdeConfig := ⟨0, 0, some 1, [1], 7, 10, [], [], some 17⟩

/-- A `SerdeConfig` without a validator key. -/
def serdeNoKey : SerdeConfig := ⟨0, 0, none, [1], 7, 10, [], [], some 17⟩

/-- A `SerdeConfig` without an operator address. -/
def serdeNoOperator : SerdeConfig := ⟨0, 0, some 1, [1], 7, 10, [], [], none⟩

/-- Witness for C7 at concrete configurations: with the key absent the
validator conversion fails while the fetcher conversion succeeds, with
the operator address absent both fail, and with all fields present both
succeed. -/
theorem serde_config_role_validation_witness :
    ((Config.tryFrom serdeNoKey).isOk = true ↔
      serdeNoKey.validator_key.isSome = true ∧
      serdeNoKey.operator_address.isSome = true) ∧
    ((FetcherConfig.tryFrom serdeNoKey).isOk = true ↔
      serdeNoKey.operator_address.isSome = true) :=
  serde_config_role_validation serdeNoKey

/-- C10: `MainNodeResourceProvider::get_resource` answers a resource
exactly for the master connection-pool resource name and `None` for
every other name, in particular for the stop-receiver resource name
`common/stop_receiver`. -/
theorem main_node_get_resource_spec (name : String) :
    ((get_resource name).isSome = true ↔ name = masterPoolResourceName) ∧
    get_resource stopReceiverResourceName = none := by
  constructor
  · by_cases h : name = masterPoolResourceName <;> simp [get_resource, h]
  · simp [get_resource, stopReceiverResourceName, masterPoolResourceName]

/-- Witness for C10 at the stop-receiver name. -/
theorem main_node_get_resource_spec_witness :
    ((get_resource stopReceiverResourceName).isSome = true ↔
      stopReceiverResourceName = masterPoolResourceName) ∧
    get_resource stopReceiverResourceName = none :=
  main_node_get_resource_spec stopReceiverResourceName

/-- C6 local payloads: the ten locally produced blocks numbered 0
through 9 (the payload at number `n`). -/
def localPayloadAt (n : Nat) : Payload := ⟨[n], n, 17⟩

/-- C6 certified blocks: `make_blocks` over the suffix 4 through 9 of
the local chain. -/
def backfillWant : List FinalBlock := makeBlocks localPayloadAt 4 6

/-- The C6 store states: the certified chain after the first `i`
insertions of `backfillWant` via `store_next_block`. -/
def backfillState : Nat → BlockStoreState
  | 0 => ⟨[]⟩
  | i + 1 =>
    match store_next_block (backfillState i) (backfillWant.getD i default) with
    | .ok s => s
    | .error _ => backfillState i

/-- C6: inserting the certified blocks 4 through 9 one at a time, before
each insertion the certified-chain dump equals exactly the prefix of
blocks inserted so far, each insertion succeeds, and after all six the
dump is the whole certified suffix. -/
theorem validator_block_store_prefix_consistency :
    (∀ i, i < 6 → dump (backfillState i) = backfillWant.take i ∧
      (store_next_block (backfillState i)
        (backfillWant.getD i default)).isOk = true) ∧
    dump (backfillState 6) = backfillWant := by decide

/-- Witness for C6 at the fourth insertion step. -/
theorem validator_block_store_prefix_consistency_witness :
    dump (backfillState 3) = backfillWant.take 3 ∧
    (store_next_block (backfillState 3)
      (backfillWant.getD 3 default)).isOk = true :=
  validator_block_store_prefix_consistency.1 3 (by decide)

end ZkSyncConsensus
